import Mathlib

/-!
Verification of the phishing-email-detector core against its specification.

The Python source (src/utils/validators.py, src/utils/parser.py,
src/models/scorer.py, src/models/analyzer.py, src/detector.py) is shallowly
embedded below. Strings are modelled as lists of characters; Python floats
are modelled as exact rationals (IEEE-754 rounding is not modelled); Python
`int()` truncation and arithmetic are modelled on `Int`/`Rat`. Calls into the
Python standard library (`urllib.parse.urlparse`, `urllib.parse.unquote`,
`ipaddress.ip_address`, `email.utils.parsedate_to_datetime`) are embedded for
the ASCII inputs the core feeds them; the date-parsing collaborator is an
explicit function parameter. Scanning functions that consume at least one
character per step use a fuel argument bounded by the input length, which is
always sufficient.
-/

/-! ## Basic Python string operations, on lists of characters -/

/-- Python `s.lower()` (ASCII case folding; the source only compares ASCII). -/
def pyLower (l : List Char) : List Char := l.map Char.toLower

/-- Python `sub in s`: contiguous substring test. -/
def pyContains (s sub : List Char) : Bool :=
  match s with
  | [] => sub.isPrefixOf []
  | _ :: rest => sub.isPrefixOf s || pyContains rest sub

/-- Python `s.count(c)` for a single character. -/
def pyCountChar (s : List Char) (c : Char) : Nat := s.count c

/-- Auxiliary for `pySplitOnChar`. -/
def pySplitOnCharAux (c : Char) : List Char → List Char → List (List Char)
  | [], acc => [acc.reverse]
  | x :: xs, acc =>
    if x = c then acc.reverse :: pySplitOnCharAux c xs []
    else pySplitOnCharAux c xs (x :: acc)

/-- Python `s.split(c)` for a one-character separator: `"a.b".split "." = [a, b]`,
`"".split "." = [""]`. -/
def pySplitOnChar (c : Char) (l : List Char) : List (List Char) :=
  pySplitOnCharAux c l []

/-- Python `s.endswith(t)`. -/
def pyEndsWith (s t : List Char) : Bool := t.isSuffixOf s

/-- Python `s.startswith(t)`. -/
def pyStartsWith (s t : List Char) : Bool := t.isPrefixOf s

/-- Python whitespace characters recognised by `str.strip()` and `\s`
(ASCII subset: space, tab, newline, carriage return, form feed, vertical tab). -/
def pyIsSpace (c : Char) : Bool :=
  c = ' ' ∨ c = '\t' ∨ c = '\n' ∨ c = '\r' ∨ c = Char.ofNat 12 ∨ c = Char.ofNat 11

/-- Python `s.strip()`. -/
def pyStrip (l : List Char) : List Char :=
  ((l.dropWhile pyIsSpace).reverse.dropWhile pyIsSpace).reverse

/-- Python `str.replace(old, new)` for non-empty `old`: left-to-right,
non-overlapping replacement of every occurrence.  Fuel is bounded by the
input length; each step consumes at least one character. -/
def pyReplaceF (old new : List Char) : Nat → List Char → List Char
  | 0, l => l
  | _ + 1, [] => []
  | fuel + 1, c :: rest =>
    if old ≠ [] ∧ old.isPrefixOf (c :: rest) then
      new ++ pyReplaceF old new fuel ((c :: rest).drop old.length)
    else
      c :: pyReplaceF old new fuel rest

/-- Python `str.replace(old, new)` (used with the non-empty homograph patterns). -/
def pyReplace (old new l : List Char) : List Char :=
  pyReplaceF old new l.length l

/-- ASCII lower-case letter. -/
def isLowAlpha (c : Char) : Bool := 'a' ≤ c ∧ c ≤ 'z'

/-- Regex class `[a-z0-9]` (the source lowercases before matching). -/
def isLowAlnum (c : Char) : Bool := isLowAlpha c ∨ c.isDigit

/-- Regex class `[a-f0-9]`: lower-case hexadecimal digit. -/
def isHexLower (c : Char) : Bool := c.isDigit ∨ ('a' ≤ c ∧ c ≤ 'f')

/-- Numeric value of a decimal digit string. -/
def digitsToNat (l : List Char) : Nat :=
  l.foldl (fun acc c => acc * 10 + (c.toNat - '0'.toNat)) 0

/-- Value of one hexadecimal digit, if any. -/
def hexVal (c : Char) : Option Nat :=
  if '0' ≤ c ∧ c ≤ '9' then some (c.toNat - '0'.toNat)
  else if 'a' ≤ c ∧ c ≤ 'f' then some (c.toNat - 'a'.toNat + 10)
  else if 'A' ≤ c ∧ c ≤ 'F' then some (c.toNat - 'A'.toNat + 10)
  else none

/-- `re.search` position scanner: does `p` hold at some suffix (including the
empty final position, as the regex engine also tries the end of the string)? -/
def anyPos (p : List Char → Bool) : List Char → Bool
  | [] => p []
  | l@(_ :: rest) => p l || anyPos p rest

/-! ## URLValidator (src/utils/validators.py) -/

/-- `urllib.parse.unquote`: percent-decoding.  Modelled byte-for-byte for
ASCII escapes; multi-byte UTF-8 sequences are outside the inputs the core
handles. -/
def pyUnquote : List Char → List Char
  | [] => []
  | '%' :: a :: b :: rest =>
    match hexVal a, hexVal b with
    | some x, some y => Char.ofNat (16 * x + y) :: pyUnquote rest
    | _, _ => '%' :: pyUnquote (a :: b :: rest)
  | c :: rest => c :: pyUnquote rest

/-- Result of `urllib.parse.urlparse` (the components the validator reads). -/
structure PyUrl where
  scheme : List Char
  netloc : List Char
  path : List Char
  query : List Char
deriving DecidableEq

/-- Characters allowed in a URL scheme (`urllib.parse.scheme_chars`). -/
def isSchemeChar (c : Char) : Bool :=
  isLowAlpha c ∨ ('A' ≤ c ∧ c ≤ 'Z') ∨ c.isDigit ∨ c = '+' ∨ c = '-' ∨ c = '.'

/-- `urllib.parse.urlparse`, embedded for the URL shapes the validator feeds
it: optional `scheme:` (first character a letter, all scheme characters),
then `//netloc` delimited by the first of `/`, `?`, `#`, then the path up to
`?` or `#`, then the query up to `#`. -/
def urlparseLite (l : List Char) : PyUrl :=
  let beforeColon := l.takeWhile (fun c => c ≠ ':')
  let hasScheme : Bool :=
    decide (beforeColon.length < l.length) && !beforeColon.isEmpty &&
    (match beforeColon.head? with
     | some c => isLowAlpha c ∨ ('A' ≤ c ∧ c ≤ 'Z')
     | none => false) &&
    beforeColon.all isSchemeChar
  let scheme := if hasScheme then beforeColon else []
  let rest := if hasScheme then l.drop (beforeColon.length + 1) else l
  let hasNetloc := pyStartsWith rest ['/', '/']
  let afterSlashes := if hasNetloc then rest.drop 2 else rest
  let netloc :=
    if hasNetloc then afterSlashes.takeWhile (fun c => c ≠ '/' ∧ c ≠ '?' ∧ c ≠ '#')
    else []
  let rest2 :=
    if hasNetloc then afterSlashes.dropWhile (fun c => c ≠ '/' ∧ c ≠ '?' ∧ c ≠ '#')
    else rest
  let pathQuery := rest2.takeWhile (fun c => c ≠ '#')
  let path := pathQuery.takeWhile (fun c => c ≠ '?')
  let query := (pathQuery.dropWhile (fun c => c ≠ '?')).drop 1
  ⟨scheme, netloc, path, query⟩

/-- `self.url_shorteners` from `URLValidator.__init__`. -/
def urlShorteners : List (List Char) :=
  ["bit.ly", "tinyurl.com", "goo.gl", "ow.ly",
   "short.link", "rebrand.ly", "t.co", "buff.ly",
   "is.gd", "adf.ly", "bl.ink", "lnkd.in"].map String.toList

/-- `self.suspicious_tlds` from `URLValidator.__init__`. -/
def suspiciousTlds : List (List Char) :=
  [".tk", ".ml", ".ga", ".cf", ".click", ".download",
   ".review", ".country", ".kim", ".science", ".work"].map String.toList

/-- `self.legitimate_domains` from `URLValidator.__init__` (insertion order). -/
def legitimateDomains : List (List Char × List (List Char)) :=
  [("amazon", ["amazon.com", "amazon.co.uk", "amazon.de"]),
   ("paypal", ["paypal.com", "paypal.me"]),
   ("microsoft", ["microsoft.com", "outlook.com", "live.com"]),
   ("google", ["google.com", "gmail.com", "googleapis.com"]),
   ("apple", ["apple.com", "icloud.com"]),
   ("facebook", ["facebook.com", "fb.com"]),
   ("twitter", ["twitter.com", "x.com"]),
   ("linkedin", ["linkedin.com", "lnkd.in"]),
   ("netflix", ["netflix.com"]),
   ("ebay", ["ebay.com"])].map
    (fun p => (p.1.toList, p.2.map String.toList))

/-- `URLValidator._is_url_shortener`: substring test against each shortener. -/
def isUrlShortener (domain : List Char) : Bool :=
  urlShorteners.any (fun sh => pyContains domain sh)

/-- `URLValidator._has_suspicious_tld`. -/
def hasSuspiciousTld (domain : List Char) : Bool :=
  suspiciousTlds.any (fun tld => pyEndsWith domain tld)

/-- One dotted-quad component accepted by `ipaddress.ip_address`: one to
three decimal digits, value at most 255, no leading zero. -/
def isIPv4Component (s : List Char) : Bool :=
  s ≠ [] ∧ s.all Char.isDigit ∧ s.length ≤ 3 ∧
  (s.length = 1 ∨ s.head? ≠ some '0') ∧ digitsToNat s ≤ 255

/-- `URLValidator._is_ip_address`: strip the port at the first colon, then ask
`ipaddress.ip_address`.  A colon-free string parses only as a dotted-quad
IPv4 address, embedded here. -/
def isIPAddress (domain : List Char) : Bool :=
  let d := (pySplitOnChar ':' domain).headD []
  let parts := pySplitOnChar '.' d
  parts.length = 4 ∧ parts.all isIPv4Component

/-- The homograph substitution pairs from `URLValidator._has_homograph_attack`. -/
def homographSubstitutions : List (List Char × List Char) :=
  [(['0'], ['o']), (['o'], ['0']),
   (['1'], ['l']), (['l'], ['1']), (['1'], ['i']),
   (['r', 'n'], ['m']), (['v', 'v'], ['w'])]

/-- One row of the single-row dynamic-programming Levenshtein loop
(`URLValidator._levenshtein_distance`): `d` is the last computed cell. -/
def levNextRow (c1 : Char) : List Char → List Nat → Nat → List Nat
  | c2 :: rest, p0 :: p1 :: ps, d =>
    let cell := min (p1 + 1) (min (d + 1) (p0 + (if c1 = c2 then 0 else 1)))
    cell :: levNextRow c1 rest (p1 :: ps) cell
  | _, _, _ => []

/-- The outer loop of `URLValidator._levenshtein_distance` over `s1`. -/
def levRows (s2 : List Char) : List Char → List Nat → Nat → List Nat
  | [], prev, _ => prev
  | c1 :: rest, prev, i =>
    levRows s2 rest ((i + 1) :: levNextRow c1 s2 prev (i + 1)) (i + 1)

/-- `URLValidator._levenshtein_distance` after the length swap. -/
def levCore (s1 s2 : List Char) : Nat :=
  if s2.length = 0 then s1.length
  else (levRows s2 s1 (List.range (s2.length + 1)) 0).getLastD 0

/-- `URLValidator._levenshtein_distance`. -/
def levenshteinDistance (s1 s2 : List Char) : Nat :=
  if s1.length < s2.length then levCore s2 s1 else levCore s1 s2

/-- The second-to-last dot-separated label (`parts[-2]`), as read by
`URLValidator._is_similar_domain`. -/
def mainLabel (domain : List Char) : List Char :=
  let parts := pySplitOnChar '.' domain
  parts.getD (parts.length - 2) []

/-- `URLValidator._is_similar_domain`: exact equality is never similar;
otherwise compare the second-level labels under each homograph substitution
and by edit distance exactly one. -/
def isSimilarDomain (domain legitimate : List Char) : Bool :=
  if domain = legitimate then false
  else
    let domainParts := pySplitOnChar '.' domain
    let legitParts := pySplitOnChar '.' legitimate
    if 2 ≤ domainParts.length ∧ 2 ≤ legitParts.length then
      (homographSubstitutions.any
        (fun p => pyReplace p.1 p.2 (mainLabel domain) = mainLabel legitimate))
      || levenshteinDistance (mainLabel domain) (mainLabel legitimate) = 1
    else false

/-- `URLValidator._has_homograph_attack`: any legitimate domain similar. -/
def hasHomographAttack (domain : List Char) : Bool :=
  legitimateDomains.any (fun p => p.2.any (fun legit => isSimilarDomain domain legit))

/-- `URLValidator._has_subdomain_spoofing`: a brand token inside the
subdomain part while the registrable domain is not that brand's. -/
def hasSubdomainSpoofing (domain : List Char) : Bool :=
  let parts := pySplitOnChar '.' domain
  if 2 < parts.length then
    let subdomains := List.intercalate ['.'] (parts.take (parts.length - 2))
    let mainDomain := List.intercalate ['.'] (parts.drop (parts.length - 2))
    legitimateDomains.any
      (fun p => pyContains subdomains p.1 ∧ ¬ p.2.contains mainDomain)
  else false

/-- Regex `/[a-f0-9]{32}`: a slash followed by at least 32 hex characters. -/
def searchSlashHex32 : List Char → Bool
  | [] => false
  | '/' :: rest =>
    ((rest.take 32).length = 32 ∧ (rest.take 32).all isHexLower) || searchSlashHex32 rest
  | _ :: rest => searchSlashHex32 rest

/-- Tail matcher for `cls+ next`: consume at least one class character, then
either match `next` or keep consuming. -/
def clsRunThen (cls : Char → Bool) (next : List Char) : List Char → Bool
  | [] => false
  | c :: rest => cls c && (next.isPrefixOf rest || clsRunThen cls next rest)

/-- One `&[a-z]+=[a-z0-9]+` group of the `.php?` chain pattern; fuel bounded
by the input length (each group consumes at least four characters). -/
def ampGroups : Nat → List Char → Nat
  | 0, _ => 0
  | fuel + 1, '&' :: rest =>
    let r1 := rest.takeWhile isLowAlpha
    let l1 := rest.drop r1.length
    if r1 = [] then 0
    else
      match l1 with
      | '=' :: l2 =>
        let r2 := l2.takeWhile isLowAlnum
        if r2 = [] then 0 else 1 + ampGroups fuel (l2.drop r2.length)
      | _ => 0
  | _ + 1, _ => 0

/-- Regex `\.php\?[a-z]+=[a-z0-9]+(&[a-z]+=[a-z0-9]+){2,}` tested at one
position.  The character classes exclude their delimiters, so matching is
deterministic and the repetition count is the maximal consecutive run. -/
def phpChainAt (l : List Char) : Bool :=
  if pyStartsWith l (String.toList ".php?") then
    let t := l.drop 5
    let r1 := t.takeWhile isLowAlpha
    let l1 := t.drop r1.length
    !r1.isEmpty &&
    (match l1 with
     | '=' :: l2 =>
       let r2 := l2.takeWhile isLowAlnum
       !r2.isEmpty && decide (2 ≤ ampGroups (l2.drop r2.length).length (l2.drop r2.length))
     | _ => false)
  else false

/-- `URLValidator._has_suspicious_path`: the five path patterns, searched in
the lower-cased path. -/
def hasSuspiciousPath (path : List Char) : Bool :=
  let p := pyLower path
  searchSlashHex32 p
  || anyPos (fun l => pyStartsWith l (String.toList "/verify/") &&
       clsRunThen isLowAlnum (String.toList "/account") (l.drop 8)) p
  || anyPos (fun l => pyStartsWith l (String.toList "/security/") &&
       clsRunThen isLowAlnum (String.toList "/update") (l.drop 10)) p
  || anyPos phpChainAt p
  || pyContains p (String.toList "/../..")

/-- `self.redirect_params` of `URLValidator._has_multiple_redirects`. -/
def redirectParams : List (List Char) :=
  ["url=", "redirect=", "goto=", "dest=", "target="].map String.toList

/-- `URLValidator._has_multiple_redirects`: at least two redirect parameter
names occur in the lower-cased raw URL. -/
def hasMultipleRedirects (url : List Char) : Bool :=
  2 ≤ (redirectParams.countP (fun p => pyContains (pyLower url) p))

/-- `URLValidator.is_suspicious`: decode percent escapes, lower-case, parse,
then test the seven indicators.  The embedding is total, so the `except`
fail-closed branch of the source is not reachable here. -/
def isSuspicious (url : String) : Bool :=
  let u := pyUnquote url.toList
  let parsed := urlparseLite (pyLower u)
  isUrlShortener parsed.netloc
  || hasSuspiciousTld parsed.netloc
  || isIPAddress parsed.netloc
  || hasHomographAttack parsed.netloc
  || hasSubdomainSpoofing parsed.netloc
  || hasSuspiciousPath parsed.path
  || hasMultipleRedirects u

/-- The netloc `is_suspicious` computes for a URL (after percent-decoding and
lower-casing), used to state domain-level properties. -/
def processedNetloc (url : String) : List Char :=
  (urlparseLite (pyLower (pyUnquote url.toList))).netloc

/-! ## RiskScorer (src/models/scorer.py) -/

/-- `self.trusted_domains` from `RiskScorer.__init__`. -/
def trustedDomains : List (List Char) :=
  ["gmail.com", "outlook.com", "yahoo.com",
   "amazon.com", "microsoft.com", "google.com",
   "apple.com", "paypal.com", "ebay.com"].map String.toList

/-- `suspicious_keywords` of `RiskScorer._calculate_sender_trust`. -/
def suspiciousKeywords : List (List Char) :=
  ["security", "alert", "verify", "suspend"].map String.toList

/-- The early-return condition of `RiskScorer._calculate_sender_trust`: some
trusted domain occurs as the substring `@domain` of the lower-cased sender,
and the sender contains exactly one at sign. -/
def senderTrustTrusted (sender : List Char) : Bool :=
  trustedDomains.any
    (fun d => pyContains (pyLower sender) ('@' :: d) &&
      decide (pyCountChar (pyLower sender) '@' = 1))

/-- The accumulated `suspicious_score` of `RiskScorer._calculate_sender_trust`
before the final cap. -/
def senderTrustPenalties (sender : List Char) : ℤ :=
  let s0 : ℤ := 0
  let s1 := if ¬ pyContains sender ['@'] then s0 + 50 else s0
  let s2 := if 1 < pyCountChar sender '@' then s1 + 30 else s1
  let s3 :=
    if pyContains sender ['@'] ∧
        ((pySplitOnChar '.' ((pySplitOnChar '@' sender).getLastD [])).headD []).any
          Char.isDigit
    then s2 + 20 else s2
  suspiciousKeywords.foldl
    (fun acc k => if pyContains (pyLower sender) k then acc + 15 else acc) s3

/-- `RiskScorer._calculate_sender_trust`. -/
def calculateSenderTrust (sender : List Char) : ℤ :=
  if senderTrustTrusted sender then 0
  else min (senderTrustPenalties sender) 100

/-- `dangerous_extensions` of `RiskScorer._calculate_bonus_factors`. -/
def dangerousExtensions : List (List Char) :=
  [".exe", ".zip", ".scr", ".vbs", ".js"].map String.toList

/-- The fields of the parsed-email record that `RiskScorer` reads
(via `parsed_data.get` with the defaults shown in the source). -/
structure ScorerInput where
  sender : List Char
  attachments : List (List Char)
  sent_at_odd_hour : Bool
  reply_to_mismatch : Bool
  external_images_count : ℤ
deriving DecidableEq

/-- Does one attachment name end with a recognized dangerous extension? -/
def isDangerousAttachment (a : List Char) : Bool :=
  dangerousExtensions.any (fun e => pyEndsWith (pyLower a) e)

/-- `RiskScorer._calculate_bonus_factors`: note the attachment loop adds 20
per matching attachment. -/
def calculateBonusFactors (p : ScorerInput) : ℤ :=
  let b0 := p.attachments.foldl
    (fun acc a => if isDangerousAttachment a then acc + 20 else acc) (0 : ℤ)
  let b1 := if p.sent_at_odd_hour then b0 + 5 else b0
  let b2 := if p.reply_to_mismatch then b1 + 15 else b1
  if 3 < p.external_images_count then b2 + 10 else b2

/-- Python `int()` on a rational: truncation toward zero. -/
def pyInt (q : ℚ) : ℤ := q.num.tdiv (q.den : ℤ)

/-- `RiskScorer.calculate`: weighted sum of the four components plus the
bonus, truncated by `int()` and clamped to the range 0 to 100. -/
def calculate (gpt_score pattern_matches suspicious_urls : ℤ)
    (parsed_data : ScorerInput) : ℤ :=
  let gptC : ℚ := (gpt_score : ℚ) * (0.4 : ℚ)
  let patternScore : ℤ := min (pattern_matches * 15) 100
  let patternsC : ℚ := (patternScore : ℚ) * (0.25 : ℚ)
  let urlScore : ℤ := min (suspicious_urls * 30) 100
  let urlsC : ℚ := (urlScore : ℚ) * (0.2 : ℚ)
  let senderScore : ℤ := calculateSenderTrust parsed_data.sender
  let senderC : ℚ := (senderScore : ℚ) * (0.15 : ℚ)
  let bonus : ℤ := calculateBonusFactors parsed_data
  let finalScore : ℚ := gptC + patternsC + urlsC + senderC + (bonus : ℚ)
  max 0 (min 100 (pyInt finalScore))

/-- The weighted sum of the four components, written as in specification
section 4.4 (shared by the claimed and the amended reading of `calculate`). -/
def weightedSum (gpt_score pattern_matches suspicious_urls : ℤ)
    (parsed_data : ScorerInput) : ℚ :=
  (gpt_score : ℚ) * (0.4 : ℚ)
  + ((min (pattern_matches * 15) 100 : ℤ) : ℚ) * (0.25 : ℚ)
  + ((min (suspicious_urls * 30) 100 : ℤ) : ℚ) * (0.2 : ℚ)
  + ((calculateSenderTrust parsed_data.sender : ℤ) : ℚ) * (0.15 : ℚ)

/-- The bonus as claim C2 words it: a single +20 when a dangerous attachment
extension is present (written from the claim, for comparison with the code). -/
def c2ClaimBonus (p : ScorerInput) : ℤ :=
  (if p.attachments.any isDangerousAttachment then 20 else 0)
  + (if p.sent_at_odd_hour then 5 else 0)
  + (if p.reply_to_mismatch then 15 else 0)
  + (if 3 < p.external_images_count then 10 else 0)

/-- Rounding to the nearest integer, the claim's `round` (written from the
claim, for comparison with the code's `int()` truncation). -/
def specRound (q : ℚ) : ℤ := ⌊q + 1 / 2⌋

/-- The score exactly as claim C2 words it: `round(weighted_sum + bonus)`
clamped to the range 0 to 100, with the presence-based bonus. -/
def c2ClaimScore (gpt_score pattern_matches suspicious_urls : ℤ)
    (parsed_data : ScorerInput) : ℤ :=
  max 0 (min 100 (specRound
    (weightedSum gpt_score pattern_matches suspicious_urls parsed_data
      + (c2ClaimBonus parsed_data : ℚ))))

/-- The bonus as the code computes it, phrased as in the amended claim:
+20 per dangerous attachment, +5, +15 and +10 for the three indicators. -/
def c2AmendedBonus (p : ScorerInput) : ℤ :=
  20 * (p.attachments.countP isDangerousAttachment : ℤ)
  + (if p.sent_at_odd_hour then 5 else 0)
  + (if p.reply_to_mismatch then 15 else 0)
  + (if 3 < p.external_images_count then 10 else 0)

/-! ## Detection engine (src/detector.py) -/

/-- The characters excluded by the bare-URL regex character class
(ASCII whitespace for the regex escape `\s`, then the listed delimiters). -/
def urlStopChars : List Char :=
  [' ', '\t', '\n', '\r', Char.ofNat 12, Char.ofNat 11,
   '<', '>', '"', Char.ofNat 123, Char.ofNat 125, '|', '\\', '^',
   Char.ofNat 96, '[', ']']

/-- A character the bare-URL regex may consume. -/
def urlChar (c : Char) : Bool := ¬ urlStopChars.contains c

/-- One attempt of the bare-URL regex at the head of the input: the literal
scheme, then a non-empty greedy run of allowed characters.  Returns the match
and the remaining input. -/
def bareMatchAt (l : List Char) : Option (List Char × List Char) :=
  let tryPre (pre : List Char) : Option (List Char × List Char) :=
    if pre.isPrefixOf l then
      let t := l.drop pre.length
      let run := t.takeWhile urlChar
      if run.isEmpty then none else some (pre ++ run, t.drop run.length)
    else none
  (tryPre (String.toList "https://")).orElse
    (fun _ => tryPre (String.toList "http://"))

/-- `re.findall` for the bare-URL pattern: non-overlapping matches, scanning
left to right.  Fuel is bounded by the input length; every step consumes at
least one character. -/
def bareFindAllF : Nat → List Char → List (List Char)
  | 0, _ => []
  | _ + 1, [] => []
  | fuel + 1, l@(_ :: rest) =>
    match bareMatchAt l with
    | some (m, after) => m :: bareFindAllF fuel after
    | none => bareFindAllF fuel rest

/-- All bare `http(s)://...` matches in a text; this is the single URL
pattern shared by `PhishingDetector._extract_urls` and the first half of
`EmailParser._extract_urls`. -/
def bareFindAll (text : List Char) : List (List Char) :=
  bareFindAllF text.length text

/-- `PhishingDetector._extract_urls`: only the bare pattern, duplicates kept. -/
def detectorExtractUrls (body : List Char) : List (List Char) :=
  bareFindAll body

/-- `URLValidator.is_suspicious` on a character-list URL. -/
def isSuspiciousL (u : List Char) : Bool := isSuspicious (String.mk u)

/-- The `suspicious_urls` list built inside `PhishingDetector.analyze_email`:
the URLs of the detector's own extraction that the validator flags. -/
def detectorSuspiciousUrls (body : List Char) : List (List Char) :=
  (detectorExtractUrls body).filter isSuspiciousL

/-- The risk thresholds of the configuration. -/
structure RiskThresholds where
  low : ℤ
  medium : ℤ
  high : ℤ
deriving DecidableEq

/-- `PhishingDetector._default_config()["risk_thresholds"]`. -/
def defaultThresholds : RiskThresholds := ⟨30, 60, 85⟩

/-- `PhishingDetector._get_risk_level`. -/
def getRiskLevel (t : RiskThresholds) (score : ℤ) : String :=
  if score < t.low then "LOW"
  else if score < t.medium then "MEDIUM"
  else if score < t.high then "HIGH"
  else "CRITICAL"

/-- The position of a tier in the ordered scale LOW, MEDIUM, HIGH, CRITICAL. -/
def riskRank (level : String) : Nat :=
  if level = "LOW" then 0
  else if level = "MEDIUM" then 1
  else if level = "HIGH" then 2
  else 3

/-- `PhishingDetector._generate_recommendations` (the `threats` argument is
accepted and ignored, as in the source). -/
def generateRecommendations (score : ℤ) (_threats : List String)
    (urls : List (List Char)) : List String :=
  let r1 : List String :=
    if 60 < score then
      ["Do not click any links in this email",
       "Verify sender through official channels"]
    else []
  let r2 : List String :=
    if ¬ urls.isEmpty then ["Hover over links to verify destinations"] else []
  let r3 : List String :=
    if 80 < score then
      ["Report this email to your security team",
       "Delete this email immediately"]
    else []
  let recs := r1 ++ r2 ++ r3
  if recs.isEmpty then ["Email appears safe but remain vigilant"] else recs

/-- The default recommendation string. -/
def defaultRecommendation : String := "Email appears safe but remain vigilant"

/-- `PhishingDetector.batch_analyze`: per-item analysis modelled as an
`Except`-valued function; a raised exception (`error`) is logged and skipped,
a returned result (`ok`) is appended, and the loop always runs to the end. -/
def batchAnalyze {α β : Type} (analyzeOne : α → Except (List Char) β) :
    List α → List β
  | [] => []
  | e :: rest =>
    match analyzeOne e with
    | Except.ok r => r :: batchAnalyze analyzeOne rest
    | Except.error _ => batchAnalyze analyzeOne rest

/-! ## GPTAnalyzer (src/models/analyzer.py) -/

/-- The structured signal `GPTAnalyzer.analyze` returns. -/
structure GPTResult where
  score : ℤ
  threats : List (List Char)
  confidence : ℚ
deriving DecidableEq

/-- `GPTAnalyzer.analyze`: a cache hit is returned before the API call;
otherwise the whole `try` block (API call, response parsing, cache store) is
modelled as one `Except`-valued outcome, and any raised exception — timeouts
included — is replaced by the fixed fallback record.  The function is total:
no failure escapes to the caller. -/
def gptAnalyze (cached : Option GPTResult)
    (callOutcome : Except (List Char) GPTResult) : GPTResult :=
  match cached with
  | some r => r
  | none =>
    match callOutcome with
    | Except.ok r => r
    | Except.error e =>
      { score := 50,
        threats := [String.toList "Analysis error: " ++ e],
        confidence := 1 / 2 }

/-! ## EmailParser (src/utils/parser.py) -/

/-- ASCII letter. -/
def isAsciiAlpha (c : Char) : Bool := ('a' ≤ c ∧ c ≤ 'z') ∨ ('A' ≤ c ∧ c ≤ 'Z')

/-- Regex class `[a-zA-Z0-9_-]` of the attachment filename pattern. -/
def isWordDashChar (c : Char) : Bool :=
  isAsciiAlpha c ∨ c.isDigit ∨ c = '_' ∨ c = '-'

/-- A quote character, for the `["\']` regex classes. -/
def isQuoteChar (c : Char) : Bool := c = '"' ∨ c = Char.ofNat 39

/-- The outcome of `EmailParser._parse_sender`: display name, address, the
spoofing flag (only ever set in the angle-bracket branch; the absent
dictionary key reads back as false), and the domain (key present only when
the address contains an at sign). -/
structure SenderParts where
  sender_display : List Char
  sender_email : List Char
  sender_spoofed : Bool
  sender_domain : Option (List Char)
deriving DecidableEq

/-- `EmailParser._parse_sender`. -/
def parseSender (sender : List Char) : SenderParts :=
  let bracketed := pyContains sender ['<'] ∧ pyContains sender ['>']
  let displayName :=
    if bracketed then pyStrip (sender.takeWhile (fun c => c ≠ '<')) else []
  let emailAddr :=
    if bracketed then
      let seg := ((sender.dropWhile (fun c => c ≠ '<')).drop 1).takeWhile
        (fun c => c ≠ '<')
      pyStrip (seg.takeWhile (fun c => c ≠ '>'))
    else pyStrip sender
  { sender_display := displayName,
    sender_email := emailAddr,
    sender_spoofed := bracketed ∧ pyContains displayName ['@'],
    sender_domain :=
      if pyContains emailAddr ['@'] then
        some ((pySplitOnChar '@' emailAddr).getLastD [])
      else none }

/-- Lookup in a header dictionary with a default, Python `headers.get(k, d)`
(keys are case-sensitive, insertion-ordered). -/
def pyDictGet (d : List (List Char × List Char)) (k dflt : List Char) :
    List Char :=
  match d.find? (fun kv => kv.1 = k) with
  | some kv => kv.2
  | none => dflt

/-- The header-derived fields of `EmailParser._parse_headers` (these
dictionary keys exist only when a non-empty header mapping was supplied). -/
structure HeaderMeta where
  return_path : List Char
  received_spf : List Char
  dkim_signature : List Char
  message_id : List Char
  spf_pass : Bool
  dkim_pass : Bool
  dmarc_pass : Bool
deriving DecidableEq

/-- `EmailParser._parse_headers`. -/
def parseHeaders (headers : List (List Char × List Char)) : HeaderMeta :=
  let auth := pyLower (pyDictGet headers (String.toList "Authentication-Results") [])
  { return_path := pyDictGet headers (String.toList "Return-Path") [],
    received_spf := pyDictGet headers (String.toList "Received-SPF") [],
    dkim_signature := pyDictGet headers (String.toList "DKIM-Signature") [],
    message_id := pyDictGet headers (String.toList "Message-ID") [],
    spf_pass := pyContains auth (String.toList "pass"),
    dkim_pass := pyContains auth (String.toList "dkim=pass"),
    dmarc_pass := pyContains auth (String.toList "dmarc=pass") }

/-- The `href=["\']...["\']` regex tested at one position (case-insensitive
key, any quote on either side, non-empty capture).  Returns the capture and
the input after the closing quote. -/
def hrefMatchAt (l : List Char) : Option (List Char × List Char) :=
  if pyStartsWith (pyLower (l.take 5)) (String.toList "href=") then
    match l.drop 5 with
    | q :: t =>
      if isQuoteChar q then
        let run := t.takeWhile (fun c => ¬ isQuoteChar c)
        match t.drop run.length with
        | q2 :: restAfter =>
          if isQuoteChar q2 ∧ ¬ run.isEmpty then some (run, restAfter) else none
        | [] => none
      else none
    | [] => none
  else none

/-- `re.findall` for the `href` pattern; fuel bounded by the input length. -/
def hrefFindAllF : Nat → List Char → List (List Char)
  | 0, _ => []
  | _ + 1, [] => []
  | fuel + 1, l@(_ :: rest) =>
    match hrefMatchAt l with
    | some (m, after) => m :: hrefFindAllF fuel after
    | none => hrefFindAllF fuel rest

/-- The `href` attribute values of a body that start with `http`. -/
def hrefLinks (body : List Char) : List (List Char) :=
  (hrefFindAllF body.length body).filter
    (fun u => pyStartsWith u (String.toList "http"))

/-- Python `list(set(xs))`: duplicates removed.  The iteration order of a
Python set is unspecified; the first-occurrence order stands in for it. -/
def pySetList (l : List (List Char)) : List (List Char) := l.dedup

/-- `EmailParser._extract_urls`: bare matches, then `href` values starting
with `http`, then deduplication. -/
def parserExtractUrls (body : List Char) : List (List Char) :=
  pySetList (bareFindAll body ++ hrefLinks body)

/-- Search for `first`, then `second` later on the same line (the regex
`first.*second`, where the dot does not match a newline): try `second` at the
current position, or step over one non-newline character. -/
def searchNoNlThen (second : List Char) : List Char → Bool
  | [] => false
  | l@(c :: rest) => second.isPrefixOf l || (c ≠ '\n' && searchNoNlThen second rest)

/-- `re.search` of `first.*second`. -/
def searchDotStar (first second text : List Char) : Bool :=
  anyPos (fun l => first.isPrefixOf l && searchNoNlThen second (l.drop first.length)) text

/-- `re.search` of `within \d+ (hours?|days?)`: the literal, a maximal
non-empty digit run, then a space and `hour` or `day` (the optional `s` and
the end of the pattern impose nothing). -/
def searchWithinHours (text : List Char) : Bool :=
  anyPos (fun l =>
    pyStartsWith l (String.toList "within ") &&
    (let t := l.drop 7
     let ds := t.takeWhile Char.isDigit
     ¬ ds.isEmpty ∧
       (pyStartsWith (t.drop ds.length) (String.toList " hour") ∨
        pyStartsWith (t.drop ds.length) (String.toList " day")))) text

/-- The urgency patterns of `EmailParser._detect_urgency` that are literal
substrings. -/
def urgencyLiteralPatterns : List (List Char) :=
  ["urgent", "immediate", "expire", "suspend", "act now", "deadline",
   "asap"].map String.toList

/-- `EmailParser._detect_urgency`: at least two of the ten fixed patterns
match the lower-cased text. -/
def detectUrgency (text : List Char) : Bool :=
  let t := pyLower text
  let cnt := urgencyLiteralPatterns.countP (fun p => pyContains t p)
    + (if searchDotStar (String.toList "limit") (String.toList "time") t then 1 else 0)
    + (if searchWithinHours t then 1 else 0)
    + (if searchDotStar (String.toList "account") (String.toList "lock") t then 1 else 0)
  2 ≤ cnt

/-- The filename-like regex `([a-zA-Z0-9_-]+\.[a-zA-Z]{2,4})` tested at one
position: a maximal non-empty word run, a dot, then two to four letters
(greedy).  Returns the match and the remaining input. -/
def fileMatchAt (l : List Char) : Option (List Char × List Char) :=
  let run := l.takeWhile isWordDashChar
  if run.isEmpty then none
  else
    match l.drop run.length with
    | '.' :: t =>
      let letters := t.takeWhile isAsciiAlpha
      if 2 ≤ letters.length then
        some (run ++ '.' :: letters.take 4, t.drop (letters.take 4).length)
      else none
    | _ => none

/-- `re.findall` for the filename pattern; fuel bounded by the input length. -/
def fileFindAllF : Nat → List Char → List (List Char)
  | 0, _ => []
  | _ + 1, [] => []
  | fuel + 1, l@(_ :: rest) =>
    match fileMatchAt l with
    | some (m, after) => m :: fileFindAllF fuel after
    | none => fileFindAllF fuel rest

/-- The body half of `EmailParser._extract_attachments`: when the literal
`attachment` occurs in the lower-cased body, up to five filename-like
tokens. -/
def bodyAttachmentTokens (body : List Char) : List (List Char) :=
  if pyContains (pyLower body) (String.toList "attachment") then
    (fileFindAllF body.length body).take 5
  else []

/-- Python `str(headers)` for a string-to-string dictionary, as scanned by
the header half of `EmailParser._extract_attachments` (ASCII header text
without quote characters or escapes assumed). -/
def headersRepr (headers : List (List Char × List Char)) : List Char :=
  let q := Char.ofNat 39
  Char.ofNat 123 ::
    (List.intercalate (String.toList ", ")
      (headers.map (fun kv => q :: kv.1 ++ q :: ':' :: ' ' :: q :: kv.2 ++ [q])))
    ++ [Char.ofNat 125]

/-- The regex `key"([^"]+)"` tested at one position: the literal key with its
opening double quote, a non-empty run without double quotes, then the closing
double quote.  Returns the capture and the remaining input. -/
def quotedCaptureAt (key : List Char) (l : List Char) : Option (List Char × List Char) :=
  if pyStartsWith l key then
    let t := l.drop key.length
    let run := t.takeWhile (fun c => c ≠ '"')
    match t.drop run.length with
    | '"' :: restAfter => if ¬ run.isEmpty then some (run, restAfter) else none
    | _ => none
  else none

/-- `re.findall` for a quoted-capture pattern; fuel bounded by input length. -/
def quotedFindAllF (key : List Char) : Nat → List Char → List (List Char)
  | 0, _ => []
  | _ + 1, [] => []
  | fuel + 1, l@(_ :: rest) =>
    match quotedCaptureAt key l with
    | some (m, after) => m :: quotedFindAllF key fuel after
    | none => quotedFindAllF key fuel rest

/-- The header half of `EmailParser._extract_attachments`: only when headers
were supplied and the content type mentions `multipart`, the
`filename="..."` then `name="..."` captures over the dictionary text. -/
def headerAttachmentTokens (headers : List (List Char × List Char)) :
    List (List Char) :=
  if headers.isEmpty then []
  else if pyContains (pyDictGet headers (String.toList "Content-Type") [])
      (String.toList "multipart") then
    let txt := headersRepr headers
    quotedFindAllF (String.toList "filename=\"") txt.length txt
      ++ quotedFindAllF (String.toList "name=\"") txt.length txt
  else []

/-- `EmailParser._extract_attachments`. -/
def extractAttachments (body : List Char)
    (headers : List (List Char × List Char)) : List (List Char) :=
  pySetList (headerAttachmentTokens headers ++ bodyAttachmentTokens body)

/-- `EmailParser._check_odd_hour`.  The collaborator
`email.utils.parsedate_to_datetime` is passed in as `parseHourOfDate`,
returning the parsed hour or `none` when parsing raises. -/
def checkOddHour (parseHourOfDate : List Char → Option Nat)
    (headers : List (List Char × List Char)) : Bool :=
  if headers.isEmpty then false
  else
    let dateHeader := pyDictGet headers (String.toList "Date") []
    if dateHeader.isEmpty then false
    else
      match parseHourOfDate dateHeader with
      | some hour => decide (hour < 6)
      | none => false

/-- `EmailParser._check_reply_to`. -/
def checkReplyTo (headers : List (List Char × List Char))
    (sender : List Char) : Bool :=
  if headers.isEmpty then false
  else
    let replyTo := pyLower (pyDictGet headers (String.toList "Reply-To") [])
    if ¬ replyTo.isEmpty ∧ pyContains replyTo ['@'] ∧ pyContains sender ['@'] then
      pyLower ((pySplitOnChar '@' sender).getLastD []) ≠
        (pySplitOnChar '@' replyTo).getLastD []
    else false

/-- The `src=["\']https?://[^"\']+["\']` tail of the external-image pattern
tested at one position (case-insensitive); returns the consumed length. -/
def imgSrcTail (l : List Char) : Option Nat :=
  if pyStartsWith (pyLower (l.take 4)) (String.toList "src=") then
    match l.drop 4 with
    | q :: t =>
      if isQuoteChar q then
        let schemeLen : Option Nat :=
          if pyStartsWith (pyLower (t.take 8)) (String.toList "https://") then some 8
          else if pyStartsWith (pyLower (t.take 7)) (String.toList "http://") then some 7
          else none
        match schemeLen with
        | some n =>
          let rest := t.drop n
          let run := rest.takeWhile (fun c => ¬ isQuoteChar c)
          if run.isEmpty then none
          else
            match rest.drop run.length with
            | q2 :: _ => if isQuoteChar q2 then some (4 + 1 + n + run.length + 1) else none
            | [] => none
        | none => none
      else none
    | [] => none
  else none

/-- Greedy backtracking for `[^>]+`: the largest gap (at least one character)
after which the `src` tail matches. -/
def imgTryFrom (t : List Char) : Nat → Option (Nat × Nat)
  | 0 => none
  | k + 1 =>
    match imgSrcTail (t.drop (k + 1)) with
    | some n => some (k + 1, n)
    | none => imgTryFrom t k

/-- The `<img[^>]+src=["\']https?://[^"\']+["\']` pattern tested at one
position; returns the consumed length. -/
def imgMatchAt (l : List Char) : Option Nat :=
  if pyStartsWith (pyLower (l.take 4)) (String.toList "<img") then
    let t := l.drop 4
    let gap := t.takeWhile (fun c => c ≠ '>')
    match imgTryFrom t gap.length with
    | some (k, n) => some (4 + k + n)
    | none => none
  else none

/-- `EmailParser._count_external_images`: the number of non-overlapping
matches of the image pattern; fuel bounded by the input length. -/
def imgCountF : Nat → List Char → Nat
  | 0, _ => 0
  | _ + 1, [] => 0
  | fuel + 1, l@(_ :: rest) =>
    match imgMatchAt l with
    | some n => 1 + imgCountF fuel (l.drop n)
    | none => imgCountF fuel rest

/-- `EmailParser._count_external_images`. -/
def countExternalImages (body : List Char) : Nat :=
  imgCountF body.length body

/-- The structured record `EmailParser.parse` returns (the wall-clock
`timestamp` field is environment input, not part of the model). -/
structure EmailRecord where
  sender : List Char
  subject : List Char
  body : List Char
  headers : List (List Char × List Char)
  urls : List (List Char)
  attachments : List (List Char)
  sender_display : List Char
  sender_email : List Char
  sender_spoofed : Bool
  sender_domain : Option (List Char)
  headerMeta : Option HeaderMeta
  urgency_detected : Bool
  sent_at_odd_hour : Bool
  reply_to_mismatch : Bool
  external_images_count : Nat
deriving DecidableEq

/-- `EmailParser.parse`, total in all inputs: an absent or empty header
mapping behaves identically (both are falsy in the source), and every
header-dependent field falls back to its default. -/
def parse (parseHourOfDate : List Char → Option Nat)
    (sender subject body : List Char)
    (headers : Option (List (List Char × List Char))) : EmailRecord :=
  let hdrs := headers.getD []
  let sp := parseSender sender
  { sender := sender,
    subject := subject,
    body := body,
    headers := hdrs,
    urls := parserExtractUrls body,
    attachments := extractAttachments body hdrs,
    sender_display := sp.sender_display,
    sender_email := sp.sender_email,
    sender_spoofed := sp.sender_spoofed,
    sender_domain := sp.sender_domain,
    headerMeta := if hdrs.isEmpty then none else some (parseHeaders hdrs),
    urgency_detected := detectUrgency (subject ++ ' ' :: body),
    sent_at_odd_hour := checkOddHour parseHourOfDate hdrs,
    reply_to_mismatch := checkReplyTo hdrs sender,
    external_images_count := countExternalImages body }
-- theorems draft (appended to defs for testing)
/-! ## Auxiliary definitions for stating the claims -/

/-- All entries of the legitimate-brand-domain table, over every brand. -/
def allLegitimateDomains : List (List Char) :=
  legitimateDomains.flatMap Prod.snd

/-- The scorer input record of the C2 counterexample: trusted sender, two
dangerous attachments, no other indicators. -/
def c2Witness : ScorerInput :=
  ⟨"support@amazon.com".toList, ["a.exe".toList, "b.zip".toList], false, false, 0⟩

/-- The capped penalty sum of claim C4, written as a single formula. -/
def c4PenaltySpec (sender : List Char) : ℤ :=
  min ((if ¬ pyContains sender ['@'] then 50 else 0)
    + (if 1 < pyCountChar sender '@' then 30 else 0)
    + (if pyContains sender ['@'] ∧
          ((pySplitOnChar '.' ((pySplitOnChar '@' sender).getLastD [])).headD []).any
            Char.isDigit
        then 20 else 0)
    + 15 * (suspiciousKeywords.countP (fun k => pyContains (pyLower sender) k) : ℤ)) 100

/-- The body of the C5 counterexample: one suspicious URL that appears only
as an `href` attribute value containing a space. -/
def c5Body : List Char := "<a href=\"http://evil.tk/a b\">c</a>".toList

/-- A per-item analysis function for the C7 witness: item 0 is malformed. -/
def c7AnalyzeOne : ℤ → Except (List Char) ℤ :=
  fun n => if n = 0 then Except.error (String.toList "bad") else Except.ok n

/-! ## Helper lemmas -/

/-- The attachment loop of the bonus accumulates 20 per dangerous attachment. -/
theorem foldl_dangerous (l : List (List Char)) (init : ℤ) :
    l.foldl (fun acc a => if isDangerousAttachment a then acc + 20 else acc) init
      = init + 20 * (l.countP isDangerousAttachment : ℤ) := by
  induction l generalizing init with
  | nil => simp
  | cons a t ih =>
    simp only [List.foldl_cons, List.countP_cons, ih]
    split_ifs with h <;> simp [h] <;> push_cast <;> ring

/-- The code's bonus equals the amended-claim bonus formula. -/
theorem calculateBonusFactors_eq (p : ScorerInput) :
    calculateBonusFactors p = c2AmendedBonus p := by
  unfold calculateBonusFactors c2AmendedBonus
  rw [foldl_dangerous]
  split_ifs <;> ring

/-- The keyword loop of the sender-trust penalties adds 15 per present keyword. -/
theorem foldl_keywords (l : List (List Char)) (t : List Char) (init : ℤ) :
    l.foldl (fun acc k => if pyContains t k then acc + 15 else acc) init
      = init + 15 * (l.countP (fun k => pyContains t k) : ℤ) := by
  induction l generalizing init with
  | nil => simp
  | cons a tl ih =>
    simp only [List.foldl_cons, List.countP_cons, ih]
    split_ifs with h <;> simp [h] <;> push_cast <;> ring

/-- Truncation agrees with the floor on non-negative rationals. -/
theorem pyInt_eq_floor (q : ℚ) (h : 0 ≤ q) : pyInt q = ⌊q⌋ := by
  rw [pyInt, Int.tdiv_eq_ediv (Rat.num_nonneg.mpr h) (by positivity), Rat.floor_def]

/-- `batchAnalyze` distributes over list append. -/
theorem batchAnalyze_append {α β : Type} (f : α → Except (List Char) β)
    (xs ys : List α) :
    batchAnalyze f (xs ++ ys) = batchAnalyze f xs ++ batchAnalyze f ys := by
  induction xs with
  | nil => rfl
  | cons a t ih =>
    simp only [List.cons_append, batchAnalyze]
    cases f a <;> simp [ih]

/-- `batchAnalyze` never returns more results than inputs. -/
theorem batchAnalyze_length_le {α β : Type} (f : α → Except (List Char) β)
    (l : List α) : (batchAnalyze f l).length ≤ l.length := by
  induction l with
  | nil => simp [batchAnalyze]
  | cons a t ih =>
    simp only [batchAnalyze]
    cases f a <;> simp <;> omega

/-! ## The claims -/

/-- C1 (code bug): the spec, the claim and the repository's own test
`test_legitimate_urls` require `is_suspicious("https://amazon.com/products")`
to be false, but the code returns true: `amazon.com` is in the legitimate
table, yet `_is_similar_domain("amazon.com", "amazon.de")` applies the
substitution `0` to `o` to the label `amazon`, which changes nothing, and the
unchanged label equals `amazon.de`'s label, so the homograph check fires. -/
theorem c1_amazon_com_flagged :
    "amazon.com".toList ∈ allLegitimateDomains ∧
    isSimilarDomain "amazon.com".toList "amazon.de".toList = true ∧
    isSuspicious "https://amazon.com/products" = true := by
  refine ⟨by decide, by decide, by decide⟩


/-- C2 (counterexample): at gpt score 4, no pattern or URL hits, a trusted
sender and two dangerous attachments, the code returns
`int(1.6 + 40) = 41`, while the claimed formula `round(weighted + 20)`
gives 22 — the code truncates instead of rounding and adds 20 per dangerous
attachment instead of once. -/
theorem c2_counterexample :
    calculate 4 0 0 c2Witness = 41 ∧ c2ClaimScore 4 0 0 c2Witness = 22 := by
  have hsender : calculateSenderTrust c2Witness.sender = 0 := by decide
  have hbonus : calculateBonusFactors c2Witness = 40 := by decide
  have hclaimb : c2ClaimBonus c2Witness = 20 := by decide
  have hmin1 : min ((0:ℤ) * 15) 100 = 0 := by decide
  have hmin2 : min ((0:ℤ) * 30) 100 = 0 := by decide
  constructor
  · simp only [calculate, hsender, hbonus, hmin1, hmin2]
    rw [pyInt_eq_floor _ (by norm_num)]
    norm_num
  · simp only [c2ClaimScore, weightedSum, specRound, hsender, hclaimb, hmin1, hmin2]
    norm_num

/-- C2 (amended): `calculate` returns the weighted sum plus the bonus,
truncated by `int()` toward zero and clamped to the range 0 to 100, where
the bonus adds 20 for each attachment with a dangerous extension, 5 for an
odd send hour, 15 for a reply-to mismatch and 10 for more than three
external images; the result always lies between 0 and 100. -/
theorem c2_amended (g p u : ℤ) (r : ScorerInput) :
    calculate g p u r
      = max 0 (min 100 (pyInt (weightedSum g p u r + (c2AmendedBonus r : ℚ))))
    ∧ 0 ≤ calculate g p u r ∧ calculate g p u r ≤ 100 := by
  refine ⟨?_, ?_, ?_⟩
  · simp only [calculate, weightedSum, calculateBonusFactors_eq]
  · simp only [calculate]
    exact le_max_left 0 _
  · simp only [calculate]
    exact max_le (by norm_num) (min_le_left _ _)

/-- C3: with the default thresholds the tier intervals are left-closed
exactly as claimed — LOW below 30, MEDIUM from 30 below 60, HIGH from 60
below 85, CRITICAL from 85 (so the boundary score 30 is MEDIUM) — and the
tier rank never decreases as the score grows. -/
theorem c3_risk_tiers :
    (∀ s : ℤ, 0 ≤ s → s ≤ 100 →
      ((getRiskLevel defaultThresholds s = "LOW" ↔ s < 30) ∧
       (getRiskLevel defaultThresholds s = "MEDIUM" ↔ 30 ≤ s ∧ s < 60) ∧
       (getRiskLevel defaultThresholds s = "HIGH" ↔ 60 ≤ s ∧ s < 85) ∧
       (getRiskLevel defaultThresholds s = "CRITICAL" ↔ 85 ≤ s))) ∧
    getRiskLevel defaultThresholds 30 = "MEDIUM" ∧
    (∀ s t : ℤ, s ≤ t →
      riskRank (getRiskLevel defaultThresholds s) ≤
        riskRank (getRiskLevel defaultThresholds t)) := by
  refine ⟨?_, by decide, ?_⟩
  · intro s _ _
    unfold getRiskLevel defaultThresholds
    split_ifs <;> refine ⟨?_, ?_, ?_, ?_⟩ <;> simp_all <;> omega
  · intro s t hst
    have hr : ∀ x : ℤ, riskRank (getRiskLevel defaultThresholds x) =
        if x < 30 then 0 else if x < 60 then 1 else if x < 85 then 2 else 3 := by
      intro x
      unfold getRiskLevel defaultThresholds
      split_ifs <;> decide
    rw [hr s, hr t]
    split_ifs <;> omega

/-- C3 witness: the theorem applied at the boundary score 30 and at the
pair of scores 30 and 85. -/
theorem c3_risk_tiers_witness :
    getRiskLevel defaultThresholds 30 = "MEDIUM" ∧
    riskRank (getRiskLevel defaultThresholds 30) ≤
      riskRank (getRiskLevel defaultThresholds 85) :=
  ⟨((c3_risk_tiers.1 30 (by decide) (by decide)).2.1).mpr (by decide),
   c3_risk_tiers.2.2 30 85 (by decide)⟩

/-- C4 (counterexample): `a@b.com` matches no trusted domain, yet the
penalty path accumulates nothing, so `sender_trust` returns 0 — the claimed
"returns 0 if and only if trusted" fails in the only-if direction. -/
theorem c4_counterexample :
    senderTrustTrusted "a@b.com".toList = false ∧
    calculateSenderTrust "a@b.com".toList = 0 := by
  refine ⟨by decide, by decide⟩

/-- C4 (amended): `sender_trust` returns 0 **if** the address matches a
trusted domain as a substring and has exactly one at sign; otherwise it
returns the capped penalty sum of the claim, which can itself be 0 when no
penalty applies; the two quoted examples hold. -/
theorem c4_amended :
    (∀ s : List Char, senderTrustTrusted s = true → calculateSenderTrust s = 0) ∧
    (∀ s : List Char, senderTrustTrusted s = false →
      calculateSenderTrust s = c4PenaltySpec s) ∧
    calculateSenderTrust "support@amazon.com".toList = 0 ∧
    0 < calculateSenderTrust "alert@amaz0n-security.com".toList := by
  refine ⟨?_, ?_, by decide, by decide⟩
  · intro s h
    simp [calculateSenderTrust, h]
  · intro s h
    simp only [calculateSenderTrust, h, Bool.false_eq_true, if_false]
    unfold senderTrustPenalties c4PenaltySpec
    rw [foldl_keywords]
    split_ifs <;> ring_nf

/-- C4 witness: the amended theorem applied to the non-trusted quoted
example address. -/
theorem c4_amended_witness :
    calculateSenderTrust "alert@amaz0n-security.com".toList =
      c4PenaltySpec "alert@amaz0n-security.com".toList :=
  c4_amended.2.1 _ (by decide)

/-- C5 (counterexample): in a body whose only link is the `href` value
`http://evil.tk/a b`, that URL is in the parsed record's URL set and is
suspicious, but `analyze_email` re-extracts URLs with the bare pattern only,
so the reported suspicious list misses it. -/
theorem c5_counterexample :
    "http://evil.tk/a b".toList ∈ parserExtractUrls c5Body ∧
    isSuspiciousL "http://evil.tk/a b".toList = true ∧
    "http://evil.tk/a b".toList ∉ detectorSuspiciousUrls c5Body := by
  refine ⟨by decide, by decide, by decide⟩

/-- C5 (amended): `suspicious_urls` is exactly the suspicious subset of the
detector's own bare-regex extraction of the body (duplicates kept), and
every listed URL is also a member of the parsed record's deduplicated URL
set and suspicious; the converse inclusion against the record's set fails
for `href`-only URLs. -/
theorem c5_amended (body u : List Char) :
    (u ∈ detectorSuspiciousUrls body ↔
      u ∈ detectorExtractUrls body ∧ isSuspiciousL u = true) ∧
    (u ∈ detectorSuspiciousUrls body →
      u ∈ parserExtractUrls body ∧ isSuspiciousL u = true) := by
  constructor
  · simp [detectorSuspiciousUrls, List.mem_filter]
  · intro hu
    have h := List.mem_filter.mp hu
    refine ⟨?_, h.2⟩
    simp only [parserExtractUrls, pySetList, List.mem_dedup, List.mem_append]
    exact Or.inl h.1

/-- C5 witness: the amended theorem applied to the counterexample body and
the bare-pattern URL it does list. -/
theorem c5_amended_witness :
    "http://evil.tk/a".toList ∈ parserExtractUrls c5Body :=
  ((c5_amended c5Body "http://evil.tk/a".toList).2 (by decide)).1

/-- C6: when the collaborator call raises for any cause (timeouts included)
and no cached answer exists, `GPTAnalyzer.analyze` returns the fixed
fallback record with score 50, the single `Analysis error` threat carrying
the cause, and confidence one half; the embedding is total, so the failure
reaches the caller only as this ordinary value. -/
theorem c6_llm_fallback (cause : List Char) :
    gptAnalyze none (Except.error cause) =
      { score := 50,
        threats := [String.toList "Analysis error: " ++ cause],
        confidence := 1 / 2 } := rfl

/-- C7: `batch_analyze` returns at most one result per input and, around any
item whose analysis fails, behaves as the concatenation of the batches of
the remaining items — the failing item is skipped and processing continues,
so a batch with exactly one malformed entry returns at most N results. -/
theorem c7_batch {α β : Type} (analyzeOne : α → Except (List Char) β)
    (emails : List α) :
    (batchAnalyze analyzeOne emails).length ≤ emails.length ∧
    (∀ (xs ys : List α) (bad : α) (e : List Char),
      emails = xs ++ bad :: ys → analyzeOne bad = Except.error e →
      batchAnalyze analyzeOne emails =
        batchAnalyze analyzeOne xs ++ batchAnalyze analyzeOne ys ∧
      (batchAnalyze analyzeOne emails).length ≤ xs.length + ys.length) := by
  refine ⟨batchAnalyze_length_le analyzeOne emails, ?_⟩
  intro xs ys bad e hsplit herr
  subst hsplit
  have hmid : batchAnalyze analyzeOne (bad :: ys) = batchAnalyze analyzeOne ys := by
    simp [batchAnalyze, herr]
  have happ : batchAnalyze analyzeOne (xs ++ bad :: ys) =
      batchAnalyze analyzeOne xs ++ batchAnalyze analyzeOne ys := by
    rw [batchAnalyze_append, hmid]
  refine ⟨happ, ?_⟩
  rw [happ]
  have h1 := batchAnalyze_length_le analyzeOne xs
  have h2 := batchAnalyze_length_le analyzeOne ys
  simp only [List.length_append]
  omega

/-- C7 witness: the theorem applied to a three-item batch whose middle item
fails. -/
theorem c7_batch_witness :
    batchAnalyze c7AnalyzeOne ([1, 0, 2] : List ℤ) =
      batchAnalyze c7AnalyzeOne [1] ++ batchAnalyze c7AnalyzeOne [2] ∧
    (batchAnalyze c7AnalyzeOne ([1, 0, 2] : List ℤ)).length ≤ 1 + 1 :=
  (c7_batch c7AnalyzeOne [1, 0, 2]).2 [1] [2] 0 (String.toList "bad") rfl rfl

/-- C8: the recommendation list is never empty; a score above 60 adds the
two do-not-click and verify-sender entries, a non-empty suspicious-URL list
adds the hover entry, a score above 80 adds the report and delete entries,
and the default safe-but-vigilant entry appears exactly when no other rule
fired, that is when the score is at most 60 and no URL is suspicious. -/
theorem c8_recommendations (score : ℤ) (threats : List String)
    (urls : List (List Char)) :
    generateRecommendations score threats urls ≠ [] ∧
    (60 < score →
      "Do not click any links in this email" ∈
        generateRecommendations score threats urls ∧
      "Verify sender through official channels" ∈
        generateRecommendations score threats urls) ∧
    (urls ≠ [] →
      "Hover over links to verify destinations" ∈
        generateRecommendations score threats urls) ∧
    (80 < score →
      "Report this email to your security team" ∈
        generateRecommendations score threats urls ∧
      "Delete this email immediately" ∈
        generateRecommendations score threats urls) ∧
    (defaultRecommendation ∈ generateRecommendations score threats urls ↔
      score ≤ 60 ∧ urls = []) := by
  unfold generateRecommendations defaultRecommendation
  rcases urls with _ | ⟨u, urest⟩ <;> split_ifs <;> refine ⟨?_, ?_, ?_, ?_, ?_⟩ <;>
    simp_all <;> omega

/-- C8 witness: the theorem applied at a high score with one suspicious URL
and at a low score with none. -/
theorem c8_recommendations_witness :
    "Hover over links to verify destinations" ∈
      generateRecommendations 90 [] [String.toList "http://bit.ly/x"] ∧
    defaultRecommendation ∈ generateRecommendations 10 [] [] :=
  ⟨(c8_recommendations 90 [] [String.toList "http://bit.ly/x"]).2.2.1 (by decide),
   (c8_recommendations 10 [] []).2.2.2.2.mpr (by exact ⟨by decide, rfl⟩)⟩

/-- C9: `EmailParser.parse` is total (every embedded operation is a total
function), an absent header mapping behaves exactly like an empty one, and
with no headers every header-dependent output takes its safe default: no odd
hour, no reply-to mismatch, empty stored headers, no header-derived
metadata, and only body-derived attachment names. -/
theorem c9_parse_defaults (parseHourOfDate : List Char → Option Nat)
    (sender subject body : List Char) :
    parse parseHourOfDate sender subject body none =
      parse parseHourOfDate sender subject body (some []) ∧
    (parse parseHourOfDate sender subject body none).sent_at_odd_hour = false ∧
    (parse parseHourOfDate sender subject body none).reply_to_mismatch = false ∧
    (parse parseHourOfDate sender subject body none).headers = [] ∧
    (parse parseHourOfDate sender subject body none).headerMeta = none ∧
    (parse parseHourOfDate sender subject body none).attachments =
      pySetList (bodyAttachmentTokens body) :=
  ⟨rfl, rfl, rfl, rfl, rfl, rfl⟩

/-- C10: the trusted-sender check is a substring test, so any address with
exactly one at sign in which `@` followed by a trusted domain occurs
anywhere in the lower-cased address gets trust 0 and bypasses every penalty
rule — including `user@amazon.com.attacker.net`, whose actual registrable
domain is not on the allowlist. -/
theorem c10_substring_trust :
    (∀ sender : List Char,
      pyCountChar (pyLower sender) '@' = 1 →
      (∃ d ∈ trustedDomains, pyContains (pyLower sender) ('@' :: d) = true) →
      calculateSenderTrust sender = 0) ∧
    calculateSenderTrust "user@amazon.com.attacker.net".toList = 0 ∧
    "amazon.com.attacker.net".toList ∉ trustedDomains := by
  refine ⟨?_, by decide, by decide⟩
  intro sender hcount hmatch
  obtain ⟨d, hd, hsub⟩ := hmatch
  have htrusted : senderTrustTrusted sender = true := by
    unfold senderTrustTrusted
    rw [List.any_eq_true]
    exact ⟨d, hd, by simp [hsub, hcount]⟩
  simp [calculateSenderTrust, htrusted]

/-- C10 witness: the theorem applied to the spoof-style address from the
claim. -/
theorem c10_substring_trust_witness :
    calculateSenderTrust "user@amazon.com.attacker.net".toList = 0 :=
  c10_substring_trust.1 _ (by decide)
    ⟨"amazon.com".toList, by decide, by decide⟩

/-- C2 witness: the amended theorem applied at one concrete input. -/
theorem c2_amended_witness :
    0 ≤ calculate 70 3 2 c2Witness ∧ calculate 70 3 2 c2Witness ≤ 100 :=
  ⟨(c2_amended 70 3 2 c2Witness).2.1, (c2_amended 70 3 2 c2Witness).2.2⟩

/-- C6 witness: the fallback equation at a concrete cause. -/
theorem c6_llm_fallback_witness :
    gptAnalyze none (Except.error (String.toList "timeout")) =
      { score := 50,
        threats := [String.toList "Analysis error: " ++ String.toList "timeout"],
        confidence := 1 / 2 } :=
  c6_llm_fallback (String.toList "timeout")

/-- C9 witness: the parse-defaults theorem at one concrete email. -/
theorem c9_parse_defaults_witness :
    parse (fun _ => none) (String.toList "a@b.com") (String.toList "hi")
        (String.toList "see attachment doc.pdf") none =
      parse (fun _ => none) (String.toList "a@b.com") (String.toList "hi")
        (String.toList "see attachment doc.pdf") (some []) :=
  (c9_parse_defaults (fun _ => none) (String.toList "a@b.com")
    (String.toList "hi") (String.toList "see attachment doc.pdf")).1
